import Mathlib

set_option autoImplicit false

namespace Autoreg

/-- Scalar integer tensor as used for the num_steps argument: a runtime value
together with a flag recording whether tf.get_static_value can recover the
value at graph-construction time. -/
structure TensorInt where
  value : Int
  isStatic : Bool
  deriving DecidableEq, Repr

/-- Model of tf.get_static_value on a scalar integer tensor: the value when it
is statically known, otherwise none. -/
def getStaticValue (t : TensorInt) : Option Int :=
  if t.isStatic then some t.value else none

/-- Static tensor shape: either fully unknown, as produced by
tf.TensorShape(None), or a known list of dimensions. -/
inductive TensorShape where
  | unknown : TensorShape
  | known : List Nat → TensorShape
  deriving DecidableEq, Repr

/-- Model of tensorshape_util.num_elements: none when the static shape is
unknown, otherwise the product of its dimensions. -/
def numElements : TensorShape → Option Nat
  | TensorShape.unknown => none
  | TensorShape.known dims => some dims.prod

/-- Model of tf.reduce_prod applied to a dynamic shape vector. -/
def reduceProd (dims : List Nat) : Nat := dims.prod

/-- Model of tf.range(0, k) for a scalar integer k: the list of indices, empty
when k is not positive. -/
def tfRange (k : Int) : List Nat := List.range k.toNat

/-- Model of the tfd.Distribution-like handle returned by distribution_fn,
restricted to the members that autoregressive.py reads: dtype,
reparameterization_type, the static event shape, the dynamic event and batch
shapes, and the sample, log_prob and prob methods. The first argument of
sample is the optional sample-shape argument n (none models a call
d.sample(seed=s) without it) and the second is the optional seed. -/
structure DistHandle (Val : Type) where
  dtype : Nat
  reparameterization_type : Nat
  event_shape : TensorShape
  event_shape_tensor : List Nat
  batch_shape_tensor : List Nat
  sample : Option Nat → Option Nat → Val
  log_prob : Val → Int
  prob : Val → Int

/-- Observable events of one public operation: an invocation of
distribution_fn (recording the argument passed, none for a zero-argument
call), or an invocation of some handle's sample method (recording the
optional n argument and the seed). -/
inductive Event (Val : Type) where
  | fnCall : Option Val → Event Val
  | sampleCall : Option Nat → Option Nat → Event Val
  deriving DecidableEq, Repr

/-- Errors raised by the modelled operations: ValueError from the consistency
checks in _get_distribution0, and InvalidArgumentError from the validation
assertions collected by _parameter_control_dependencies. -/
inductive TfError where
  | valueError : String → TfError
  | invalidArgument : String → TfError
  deriving DecidableEq, Repr

/-- State of a constructed Autoregressive distribution: the fields stored by
Autoregressive.__init__. The dtype and reparameterization_type fields are the
values recorded from the handle produced by the construction-time call of
distribution_fn. -/
structure Autoregressive (Val : Type) where
  distribution_fn : Option Val → DistHandle Val
  sample0 : Option Val
  num_steps : Option TensorInt
  validate_args : Bool
  dtype : Nat
  reparameterization_type : Nat

/-- Modelled from the spec: the seed-derivation utility SeedStream
(tensorflow_probability/python/util/seed_stream.py, which is not under src/).
Given an optional seed and a salt string it deterministically produces one
seed token: the same salt and the same input seed give the same token, and an
omitted seed gives a non-deterministic token, modelled as none. -/
def seedStreamDraw (seed : Option Nat) (salt : String) : Option Nat :=
  seed.map
    (fun s => (s * 1000003 + salt.foldl (fun a c => a * 31 + c.toNat) 7) % 2147483648)

/-- Error message built by _get_distribution0 on a dtype mismatch; it names
the construction-time dtype and the offending dtype. -/
def dtypeMismatchMsg (old offending : Nat) : String :=
  "`distribution_fn` returned distributions with different dtype -- previously "
    ++ toString old ++ " and now " ++ toString offending

/-- Error message built by _get_distribution0 on a reparameterization type
mismatch; it names the construction-time value and the offending value. -/
def reparamMismatchMsg (old offending : Nat) : String :=
  "`distribution_fn` returned distributions with different reparameterize_type -- previously "
    ++ toString old ++ " and now " ++ toString offending

/-- Model of Autoregressive._get_distribution0: re-invoke distribution_fn on
sample0 (a zero-argument call when sample0 is none) and check the returned
handle's dtype and reparameterization_type against the values recorded at
construction, raising ValueError on a mismatch. -/
def Autoregressive.get_distribution0 {Val : Type} (ar : Autoregressive Val) :
    Except TfError (DistHandle Val) :=
  let ret := ar.distribution_fn ar.sample0
  if ret.dtype ≠ ar.dtype then
    Except.error (TfError.valueError (dtypeMismatchMsg ar.dtype ret.dtype))
  else if ret.reparameterization_type ≠ ar.reparameterization_type then
    Except.error (TfError.valueError
      (reparamMismatchMsg ar.reparameterization_type ret.reparameterization_type))
  else
    Except.ok ret

/-- Model of Autoregressive._parameter_control_dependencies: the list of
validation assertions, each recorded by its truth value. With validation
disabled the list is empty. num_steps is modelled as a non-reference scalar
tensor, so tensor_util.is_ref is false (the assertions are collected at init
time) and the rank-0 assertion always holds. -/
def Autoregressive.parameter_control_dependencies {Val : Type}
    (ar : Autoregressive Val) (is_init : Bool) : List Bool :=
  if ar.validate_args = false then []
  else
    match ar.num_steps with
    | none => []
    | some t => if is_init then [true, decide (0 < t.value)] else []

/-- Model of Autoregressive.__init__ together with the base Distribution class
executing the collected is_init validation assertions (the base class is not
under src/; per the spec the collected assertions are executed before the
construction is relied upon, raising InvalidArgument on failure).
distribution_fn is invoked once here, to record dtype and
reparameterization_type. -/
def construct {Val : Type} (fn : Option Val → DistHandle Val) (sample0 : Option Val)
    (num_steps : Option TensorInt) (validate_args : Bool) :
    Except TfError (Autoregressive Val) :=
  let distribution0 := fn sample0
  let ar : Autoregressive Val :=
    { distribution_fn := fn
      sample0 := sample0
      num_steps := num_steps
      validate_args := validate_args
      dtype := distribution0.dtype
      reparameterization_type := distribution0.reparameterization_type }
  if (ar.parameter_control_dependencies true).all (fun b => b) then
    Except.ok ar
  else
    Except.error (TfError.invalidArgument "Argument `num_steps` must be positive")

/-- One recurrence step of _sample_n: invoke distribution_fn on the running
sample and draw from the returned handle with the given seed token, recording
the two events the step produces. -/
def recurrenceStep {Val : Type} (fn : Option Val → DistHandle Val)
    (seedToken : Option Nat) (s : Val) : Val × List (Event Val) :=
  ((fn (some s)).sample none seedToken,
   [Event.fnCall (some s), Event.sampleCall none seedToken])

/-- Model of the unrolled loop in _sample_n (for _ in range(num_steps_static)),
accumulating the events of each step in order. -/
def unrolledSteps {Val : Type} (fn : Option Val → DistHandle Val)
    (seedToken : Option Nat) : Nat → Val → Val × List (Event Val)
  | 0, s => (s, [])
  | k + 1, s =>
    let step := recurrenceStep fn seedToken s
    let rest := unrolledSteps fn seedToken k step.1
    (rest.1, step.2 ++ rest.2)

/-- Model of tf.foldl over tf.range(0, num_steps) in _sample_n: a sequential
left fold carrying the running sample, applying the recurrence step once per
element and accumulating the events. -/
def foldlSteps {Val : Type} (fn : Option Val → DistHandle Val)
    (seedToken : Option Nat) (elems : List Nat) (init : Val) :
    Val × List (Event Val) :=
  elems.foldl
    (fun acc _ =>
      let step := recurrenceStep fn seedToken acc.1
      (step.1, acc.2 ++ step.2))
    (init, [])

/-- Model of Autoregressive._sample_n: materialize the base distribution via
_get_distribution0; resolve the step count, using the static value of
num_steps when it was supplied, and otherwise the element count of the base
event shape (statically when that is known, otherwise dynamically as the
product of the dynamic event-shape dimensions); derive one seed token with
the fixed salt Autoregressive; draw the initial samples from the base
distribution; then run the recurrence, as an unrolled loop when the count is
static and as a sequential fold over tf.range otherwise. The returned event
list records every distribution_fn invocation and every sample call. -/
def Autoregressive.sample_n {Val : Type} (ar : Autoregressive Val) (n : Nat)
    (seed : Option Nat) : Except TfError (Val × List (Event Val)) :=
  ar.get_distribution0.map (fun distribution0 =>
    let num_steps_static : Option Int :=
      match ar.num_steps with
      | some t => getStaticValue t
      | none =>
        match numElements distribution0.event_shape with
        | some m => some (Int.ofNat m)
        | none => none
    let num_steps_dynamic : Int :=
      match ar.num_steps with
      | some t => t.value
      | none => Int.ofNat (reduceProd distribution0.event_shape_tensor)
    let seedToken := seedStreamDraw seed "Autoregressive"
    let samples := distribution0.sample (some n) seedToken
    let initEvents : List (Event Val) :=
      [Event.fnCall ar.sample0, Event.sampleCall (some n) seedToken]
    match num_steps_static with
    | some k =>
      let run := unrolledSteps ar.distribution_fn seedToken k.toNat samples
      (run.1, initEvents ++ run.2)
    | none =>
      let run := foldlSteps ar.distribution_fn seedToken (tfRange num_steps_dynamic) samples
      (run.1, initEvents ++ run.2))

/-- Model of Autoregressive._log_prob: a single delegation,
distribution_fn(value).log_prob(value), with the one distribution_fn
invocation recorded. -/
def Autoregressive.log_prob {Val : Type} (ar : Autoregressive Val) (value : Val) :
    Int × List (Event Val) :=
  ((ar.distribution_fn (some value)).log_prob value, [Event.fnCall (some value)])

/-- Model of Autoregressive._prob: a single delegation,
distribution_fn(value).prob(value), with the one distribution_fn invocation
recorded. -/
def Autoregressive.prob {Val : Type} (ar : Autoregressive Val) (value : Val) :
    Int × List (Event Val) :=
  ((ar.distribution_fn (some value)).prob value, [Event.fnCall (some value)])

/-- Model of Autoregressive._batch_shape: always tf.TensorShape(None), with no
distribution_fn invocation and no tensor materialization. -/
def Autoregressive.batch_shape {Val : Type} (_ar : Autoregressive Val) :
    TensorShape × List (Event Val) :=
  (TensorShape.unknown, [])

/-- Model of Autoregressive._event_shape: always tf.TensorShape(None), with no
distribution_fn invocation and no tensor materialization. -/
def Autoregressive.event_shape {Val : Type} (_ar : Autoregressive Val) :
    TensorShape × List (Event Val) :=
  (TensorShape.unknown, [])

/-- Model of Autoregressive._batch_shape_tensor: materialize a fresh base
distribution via _get_distribution0 and return its dynamic batch shape. -/
def Autoregressive.batch_shape_tensor {Val : Type} (ar : Autoregressive Val) :
    Except TfError (List Nat × List (Event Val)) :=
  ar.get_distribution0.map (fun d => (d.batch_shape_tensor, [Event.fnCall ar.sample0]))

/-- Model of Autoregressive._event_shape_tensor: materialize a fresh base
distribution via _get_distribution0 and return its dynamic event shape. -/
def Autoregressive.event_shape_tensor {Val : Type} (ar : Autoregressive Val) :
    Except TfError (List Nat × List (Event Val)) :=
  ar.get_distribution0.map (fun d => (d.event_shape_tensor, [Event.fnCall ar.sample0]))

/-- Arguments of the distribution_fn invocations recorded in a trace, in
order. -/
def fnCallArgs {Val : Type} : List (Event Val) → List (Option Val)
  | [] => []
  | Event.fnCall a :: es => a :: fnCallArgs es
  | Event.sampleCall _ _ :: es => fnCallArgs es

/-- Seeds of the sample invocations recorded in a trace, in order. -/
def sampleSeeds {Val : Type} : List (Event Val) → List (Option Nat)
  | [] => []
  | Event.fnCall _ :: es => sampleSeeds es
  | Event.sampleCall _ s :: es => s :: sampleSeeds es

/-- Sequence of running samples produced by the recurrence of _sample_n:
sampleChain fn tok s0 i is the running sample after i recurrence steps
starting from the initial draw s0. -/
def sampleChain {Val : Type} (fn : Option Val → DistHandle Val)
    (seedToken : Option Nat) (s0 : Val) : Nat → Val
  | 0 => s0
  | i + 1 => (fn (some (sampleChain fn seedToken s0 i))).sample none seedToken

/-- Events produced by k recurrence steps of _sample_n starting from the
initial draw s0. -/
def chainTrace {Val : Type} (fn : Option Val → DistHandle Val)
    (seedToken : Option Nat) (s0 : Val) : Nat → List (Event Val)
  | 0 => []
  | k + 1 =>
    chainTrace fn seedToken s0 k ++
      [Event.fnCall (some (sampleChain fn seedToken s0 k)),
       Event.sampleCall none seedToken]

/-- Step count that _sample_n resolves, as a natural number: the value of
num_steps when it was supplied (clamped at zero the way range and tf.range
treat a non-positive bound), and otherwise the element count of the base
distribution's event shape, read statically when known and dynamically
otherwise. -/
def resolvedSteps {Val : Type} (ar : Autoregressive Val) (d0 : DistHandle Val) : Nat :=
  match ar.num_steps with
  | some t => t.value.toNat
  | none =>
    match numElements d0.event_shape with
    | some m => m
    | none => reduceProd d0.event_shape_tensor

/-- Taking toNat after embedding a natural number into the integers is the
identity. -/
theorem intToNat_ofNat (m : Nat) : (Int.ofNat m).toNat = m := rfl

/-- Mapping over a successful Except value applies the function. -/
theorem exceptMap_ok {ε α β : Type} (f : α → β) (a : α) :
    (Except.ok a : Except ε α).map f = Except.ok (f a) := rfl

/-- Mapping over a failed Except value keeps the error. -/
theorem exceptMap_error {ε α β : Type} (f : α → β) (e : ε) :
    (Except.error e : Except ε α).map f = Except.error e := rfl

/-- When the re-materialized handle agrees with the construction-time dtype
and reparameterization_type, _get_distribution0 returns it. -/
theorem get_distribution0_ok {Val : Type} (ar : Autoregressive Val)
    (hd : (ar.distribution_fn ar.sample0).dtype = ar.dtype)
    (hr : (ar.distribution_fn ar.sample0).reparameterization_type =
      ar.reparameterization_type) :
    ar.get_distribution0 = Except.ok (ar.distribution_fn ar.sample0) := by
  unfold Autoregressive.get_distribution0
  simp [hd, hr]

/-- On a dtype mismatch, _get_distribution0 raises the ValueError whose
message names the construction-time dtype and the offending dtype. -/
theorem get_distribution0_error_dtype {Val : Type} (ar : Autoregressive Val)
    (hd : (ar.distribution_fn ar.sample0).dtype ≠ ar.dtype) :
    ar.get_distribution0 = Except.error (TfError.valueError
      (dtypeMismatchMsg ar.dtype (ar.distribution_fn ar.sample0).dtype)) := by
  unfold Autoregressive.get_distribution0
  simp [hd]

/-- On a reparameterization type mismatch (with matching dtype),
_get_distribution0 raises the ValueError whose message names the
construction-time value and the offending value. -/
theorem get_distribution0_error_reparam {Val : Type} (ar : Autoregressive Val)
    (hd : (ar.distribution_fn ar.sample0).dtype = ar.dtype)
    (hr : (ar.distribution_fn ar.sample0).reparameterization_type ≠
      ar.reparameterization_type) :
    ar.get_distribution0 = Except.error (TfError.valueError
      (reparamMismatchMsg ar.reparameterization_type
        (ar.distribution_fn ar.sample0).reparameterization_type)) := by
  unfold Autoregressive.get_distribution0
  simp [hd, hr]

/-- Shifting the start of the sample chain by one step. -/
theorem sampleChain_shift {Val : Type} (fn : Option Val → DistHandle Val)
    (tok : Option Nat) (s0 : Val) (k : Nat) :
    sampleChain fn tok s0 (k + 1) =
      sampleChain fn tok ((fn (some s0)).sample none tok) k := by
  induction k with
  | zero => rfl
  | succ k ih =>
    rw [sampleChain, ih, sampleChain]

/-- Shifting the start of the chain trace by one step. -/
theorem chainTrace_shift {Val : Type} (fn : Option Val → DistHandle Val)
    (tok : Option Nat) (s0 : Val) (k : Nat) :
    chainTrace fn tok s0 (k + 1) =
      Event.fnCall (some s0) :: Event.sampleCall none tok ::
        chainTrace fn tok ((fn (some s0)).sample none tok) k := by
  induction k with
  | zero => rfl
  | succ k ih =>
    rw [chainTrace, ih, sampleChain_shift, chainTrace]
    simp

/-- Closed form of the unrolled loop of _sample_n: after k steps the result
is the k-th element of the sample chain and the events are the chain trace. -/
theorem unrolledSteps_eq {Val : Type} (fn : Option Val → DistHandle Val)
    (tok : Option Nat) (k : Nat) (s0 : Val) :
    unrolledSteps fn tok k s0 = (sampleChain fn tok s0 k, chainTrace fn tok s0 k) := by
  induction k generalizing s0 with
  | zero => rfl
  | succ k ih =>
    rw [unrolledSteps]
    simp only [recurrenceStep, ih, sampleChain_shift, chainTrace_shift]
    simp

/-- Closed form of the sequential fold of _sample_n over an index range: it
agrees with the sample chain and the chain trace of the same length. -/
theorem foldlSteps_range_eq {Val : Type} (fn : Option Val → DistHandle Val)
    (tok : Option Nat) (m : Nat) (s0 : Val) :
    foldlSteps fn tok (List.range m) s0 =
      (sampleChain fn tok s0 m, chainTrace fn tok s0 m) := by
  induction m with
  | zero => rfl
  | succ m ih =>
    rw [List.range_succ]
    unfold foldlSteps at ih ⊢
    rw [List.foldl_append, ih]
    simp [recurrenceStep, sampleChain, chainTrace]

/-- Closed form of _sample_n when the consistency checks pass: the result is
the element of the sample chain indexed by the resolved step count, and the
trace is the initial materialization and base draw followed by the chain
trace of that length. -/
theorem sample_n_closed_form {Val : Type} (ar : Autoregressive Val) (n : Nat)
    (seed : Option Nat)
    (hd : (ar.distribution_fn ar.sample0).dtype = ar.dtype)
    (hr : (ar.distribution_fn ar.sample0).reparameterization_type =
      ar.reparameterization_type) :
    ar.sample_n n seed =
      Except.ok
        (sampleChain ar.distribution_fn (seedStreamDraw seed "Autoregressive")
          ((ar.distribution_fn ar.sample0).sample (some n)
            (seedStreamDraw seed "Autoregressive"))
          (resolvedSteps ar (ar.distribution_fn ar.sample0)),
         Event.fnCall ar.sample0 ::
           Event.sampleCall (some n) (seedStreamDraw seed "Autoregressive") ::
             chainTrace ar.distribution_fn (seedStreamDraw seed "Autoregressive")
               ((ar.distribution_fn ar.sample0).sample (some n)
                 (seedStreamDraw seed "Autoregressive"))
               (resolvedSteps ar (ar.distribution_fn ar.sample0))) := by
  have h0 := get_distribution0_ok ar hd hr
  unfold Autoregressive.sample_n
  rw [h0, exceptMap_ok]
  cases hns : ar.num_steps with
  | none =>
    cases hes : numElements (ar.distribution_fn ar.sample0).event_shape with
    | none =>
      simp [hns, hes, resolvedSteps, tfRange, foldlSteps_range_eq]
    | some m =>
      simp [hns, hes, resolvedSteps, unrolledSteps_eq]
  | some t =>
    cases hstt : t.isStatic with
    | false =>
      simp [hns, getStaticValue, hstt, resolvedSteps, tfRange, foldlSteps_range_eq]
    | true =>
      simp [hns, getStaticValue, hstt, resolvedSteps, unrolledSteps_eq]

/-- When _get_distribution0 fails, _sample_n propagates the same error. -/
theorem sample_n_propagates_error {Val : Type} (ar : Autoregressive Val) (n : Nat)
    (seed : Option Nat) (e : TfError) (h : ar.get_distribution0 = Except.error e) :
    ar.sample_n n seed = Except.error e := by
  unfold Autoregressive.sample_n
  rw [h, exceptMap_error]

/-- Homomorphism of fnCallArgs over trace concatenation. -/
theorem fnCallArgs_append {Val : Type} (l1 l2 : List (Event Val)) :
    fnCallArgs (l1 ++ l2) = fnCallArgs l1 ++ fnCallArgs l2 := by
  induction l1 with
  | nil => rfl
  | cons e es ih =>
    cases e with
    | fnCall a => simp [fnCallArgs, ih]
    | sampleCall a b => simp [fnCallArgs, ih]

/-- Homomorphism of sampleSeeds over trace concatenation. -/
theorem sampleSeeds_append {Val : Type} (l1 l2 : List (Event Val)) :
    sampleSeeds (l1 ++ l2) = sampleSeeds l1 ++ sampleSeeds l2 := by
  induction l1 with
  | nil => rfl
  | cons e es ih =>
    cases e with
    | fnCall a => simp [sampleSeeds, ih]
    | sampleCall a b => simp [sampleSeeds, ih]

/-- Arguments of the distribution_fn invocations made by k recurrence steps:
the running samples of the chain, in order. -/
theorem fnCallArgs_chainTrace {Val : Type} (fn : Option Val → DistHandle Val)
    (tok : Option Nat) (s0 : Val) (k : Nat) :
    fnCallArgs (chainTrace fn tok s0 k) =
      (List.range k).map (fun i => some (sampleChain fn tok s0 i)) := by
  induction k with
  | zero => rfl
  | succ k ih =>
    rw [chainTrace, List.range_succ, fnCallArgs_append]
    simp [fnCallArgs, ih]

/-- Seeds of the sample invocations made by k recurrence steps: the one seed
token, repeated k times. -/
theorem sampleSeeds_chainTrace {Val : Type} (fn : Option Val → DistHandle Val)
    (tok : Option Nat) (s0 : Val) (k : Nat) :
    sampleSeeds (chainTrace fn tok s0 k) = List.replicate k tok := by
  induction k with
  | zero => rfl
  | succ k ih =>
    rw [chainTrace, sampleSeeds_append, ih, List.replicate_succ']
    simp [sampleSeeds]

/-- Concrete distribution handle for evaluation: the drawn sample depends on
the argument that was passed to distribution_fn, on the optional n and on the
seed, so the recurrence chain is non-degenerate. -/
def demoHandle (arg : Option Nat) : DistHandle Nat :=
  { dtype := 0
    reparameterization_type := 1
    event_shape := TensorShape.known [3]
    event_shape_tensor := [3]
    batch_shape_tensor := [2]
    sample := fun nopt sopt =>
      10 * (match arg with | none => 5 | some a => a) +
        (match nopt with | none => 1 | some n => n) +
        (match sopt with | none => 2 | some s => s % 10)
    log_prob := fun v => Int.ofNat v
    prob := fun v => Int.ofNat v + 1 }

/-- Concrete distribution_fn for evaluation. -/
def demoFn : Option Nat → DistHandle Nat := demoHandle

/-- Concrete Autoregressive state: demoFn, sample0 = 4, static num_steps = 2,
with the dtype and reparameterization type demoFn actually produces. -/
def demoAR : Autoregressive Nat :=
  { distribution_fn := demoFn
    sample0 := some 4
    num_steps := some { value := 2, isStatic := true }
    validate_args := false
    dtype := 0
    reparameterization_type := 1 }

/-- Concrete Autoregressive state with num_steps omitted. -/
def demoARNoSteps : Autoregressive Nat :=
  { distribution_fn := demoFn
    sample0 := some 4
    num_steps := none
    validate_args := false
    dtype := 0
    reparameterization_type := 1 }

/-- Concrete Autoregressive state whose recorded dtype no longer matches what
demoFn returns, modelling a distribution_fn whose behavior drifted after
construction. -/
def demoARBadDtype : Autoregressive Nat :=
  { distribution_fn := demoFn
    sample0 := some 4
    num_steps := some { value := 2, isStatic := true }
    validate_args := false
    dtype := 7
    reparameterization_type := 1 }

/-- Concrete Autoregressive state whose recorded dtype and reparameterization
type both differ from what demoFn returns. -/
def demoARBadBoth : Autoregressive Nat :=
  { distribution_fn := demoFn
    sample0 := some 4
    num_steps := none
    validate_args := false
    dtype := 7
    reparameterization_type := 9 }

/-- Concrete Autoregressive state identical to demoAR except for the
validation flag, which _sample_n never reads. -/
def demoARValidate : Autoregressive Nat :=
  { distribution_fn := demoFn
    sample0 := some 4
    num_steps := some { value := 2, isStatic := true }
    validate_args := true
    dtype := 0
    reparameterization_type := 1 }

/-- Concrete Autoregressive state with statically known num_steps = 0 and
validation disabled. -/
def demoARZero : Autoregressive Nat :=
  { distribution_fn := demoFn
    sample0 := some 4
    num_steps := some { value := 0, isStatic := true }
    validate_args := false
    dtype := 0
    reparameterization_type := 1 }

/-- Claim C1: for a statically known step count k ≥ 1, and a distribution_fn
consistent with the construction-time dtype and reparameterization type,
sample(n, seed) invokes distribution_fn exactly k + 1 times: once on sample0
to materialize the base distribution, then k recurrence calls, the argument
of each subsequent call being the sampled output of the previous call's
handle (the running samples of the chain); and the returned samples tensor is
the k-th element of the chain, the result of the k-th recurrence step. -/
theorem claim1_static_step_count {Val : Type} (ar : Autoregressive Val) (n : Nat)
    (seed : Option Nat) (t : TensorInt) (k : Nat)
    (hns : ar.num_steps = some t) (hstt : t.isStatic = true)
    (hval : t.value = Int.ofNat k) (hk : 1 ≤ k)
    (hd : (ar.distribution_fn ar.sample0).dtype = ar.dtype)
    (hr : (ar.distribution_fn ar.sample0).reparameterization_type =
      ar.reparameterization_type) :
    ∃ tr : List (Event Val),
      ar.sample_n n seed =
        Except.ok
          (sampleChain ar.distribution_fn (seedStreamDraw seed "Autoregressive")
            ((ar.distribution_fn ar.sample0).sample (some n)
              (seedStreamDraw seed "Autoregressive")) k, tr) ∧
      (fnCallArgs tr).length = k + 1 ∧
      fnCallArgs tr = ar.sample0 ::
        (List.range k).map (fun i =>
          some (sampleChain ar.distribution_fn (seedStreamDraw seed "Autoregressive")
            ((ar.distribution_fn ar.sample0).sample (some n)
              (seedStreamDraw seed "Autoregressive")) i)) := by
  have hres : resolvedSteps ar (ar.distribution_fn ar.sample0) = k := by
    simp [resolvedSteps, hns, hval]
  have h := sample_n_closed_form ar n seed hd hr
  rw [hres] at h
  refine ⟨_, h, ?_, ?_⟩
  · simp [fnCallArgs, fnCallArgs_chainTrace]
  · simp [fnCallArgs, fnCallArgs_chainTrace]

/-- Witness for claim C1 at the concrete instance demoAR, k = 2, n = 6,
seed 42. -/
theorem claim1_static_step_count_witness :
    ∃ tr : List (Event Nat),
      demoAR.sample_n 6 (some 42) =
        Except.ok
          (sampleChain demoAR.distribution_fn (seedStreamDraw (some 42) "Autoregressive")
            ((demoAR.distribution_fn demoAR.sample0).sample (some 6)
              (seedStreamDraw (some 42) "Autoregressive")) 2, tr) ∧
      (fnCallArgs tr).length = 2 + 1 ∧
      fnCallArgs tr = demoAR.sample0 ::
        (List.range 2).map (fun i =>
          some (sampleChain demoAR.distribution_fn (seedStreamDraw (some 42) "Autoregressive")
            ((demoAR.distribution_fn demoAR.sample0).sample (some 6)
              (seedStreamDraw (some 42) "Autoregressive")) i)) :=
  claim1_static_step_count demoAR 6 (some 42) { value := 2, isStatic := true } 2
    rfl rfl rfl (by decide) rfl rfl

/-- Claim C2: for every value v, log_prob invokes distribution_fn exactly
once, with argument v, and returns distribution_fn(v).log_prob(v); likewise
prob invokes distribution_fn exactly once with argument v and returns
distribution_fn(v).prob(v); no iteration is performed. -/
theorem claim2_density_single_delegation {Val : Type} (ar : Autoregressive Val)
    (v : Val) :
    (ar.log_prob v).1 = (ar.distribution_fn (some v)).log_prob v ∧
    fnCallArgs (ar.log_prob v).2 = [some v] ∧
    (ar.prob v).1 = (ar.distribution_fn (some v)).prob v ∧
    fnCallArgs (ar.prob v).2 = [some v] := by
  refine ⟨rfl, ?_, rfl, ?_⟩ <;>
    simp [Autoregressive.log_prob, Autoregressive.prob, fnCallArgs]

/-- Claim C3, evaluated at the failing input: with validation disabled (the
default), construction with statically known num_steps = 0 succeeds instead
of raising, because the positivity check lives only in
_parameter_control_dependencies, which returns no assertions when
validate_args is false. -/
theorem claim3_zero_steps_construction_succeeds :
    construct demoFn (some 4) (some { value := 0, isStatic := true }) false =
      Except.ok
        { distribution_fn := demoFn
          sample0 := some 4
          num_steps := some { value := 0, isStatic := true }
          validate_args := false
          dtype := 0
          reparameterization_type := 1 } := rfl

/-- Claim C4: whenever an operation that re-materializes the base
distribution (sample, or a dynamic batch/event shape query) obtains from
distribution_fn a handle whose dtype or reparameterization type differs from
the value recorded at construction, the operation fails with the consistency
ValueError, whose message literally contains both the construction-time value
and the offending value, and never silently coerces. -/
theorem claim4_consistency_error_names_both {Val : Type} (ar : Autoregressive Val)
    (n : Nat) (seed : Option Nat)
    (hmis : (ar.distribution_fn ar.sample0).dtype ≠ ar.dtype ∨
      (ar.distribution_fn ar.sample0).reparameterization_type ≠
        ar.reparameterization_type) :
    ∃ (old offending : Nat) (pre mid : String),
      ((old = ar.dtype ∧ offending = (ar.distribution_fn ar.sample0).dtype) ∨
       (old = ar.reparameterization_type ∧
        offending = (ar.distribution_fn ar.sample0).reparameterization_type)) ∧
      old ≠ offending ∧
      ar.get_distribution0 = Except.error
        (TfError.valueError (pre ++ toString old ++ mid ++ toString offending)) ∧
      ar.sample_n n seed = Except.error
        (TfError.valueError (pre ++ toString old ++ mid ++ toString offending)) ∧
      ar.batch_shape_tensor = Except.error
        (TfError.valueError (pre ++ toString old ++ mid ++ toString offending)) ∧
      ar.event_shape_tensor = Except.error
        (TfError.valueError (pre ++ toString old ++ mid ++ toString offending)) := by
  by_cases hdt : (ar.distribution_fn ar.sample0).dtype = ar.dtype
  · have hrt : (ar.distribution_fn ar.sample0).reparameterization_type ≠
        ar.reparameterization_type := by
      rcases hmis with h | h
      · exact absurd hdt h
      · exact h
    have herr : ar.get_distribution0 = Except.error (TfError.valueError
        ("`distribution_fn` returned distributions with different reparameterize_type -- previously "
          ++ toString ar.reparameterization_type ++ " and now "
          ++ toString (ar.distribution_fn ar.sample0).reparameterization_type)) :=
      get_distribution0_error_reparam ar hdt hrt
    refine ⟨ar.reparameterization_type,
      (ar.distribution_fn ar.sample0).reparameterization_type,
      "`distribution_fn` returned distributions with different reparameterize_type -- previously ",
      " and now ", Or.inr ⟨rfl, rfl⟩, Ne.symm hrt, herr, ?_, ?_, ?_⟩
    · exact sample_n_propagates_error ar n seed _ herr
    · unfold Autoregressive.batch_shape_tensor
      rw [herr, exceptMap_error]
    · unfold Autoregressive.event_shape_tensor
      rw [herr, exceptMap_error]
  · have herr : ar.get_distribution0 = Except.error (TfError.valueError
        ("`distribution_fn` returned distributions with different dtype -- previously "
          ++ toString ar.dtype ++ " and now "
          ++ toString (ar.distribution_fn ar.sample0).dtype)) :=
      get_distribution0_error_dtype ar hdt
    refine ⟨ar.dtype, (ar.distribution_fn ar.sample0).dtype,
      "`distribution_fn` returned distributions with different dtype -- previously ",
      " and now ", Or.inl ⟨rfl, rfl⟩, Ne.symm hdt, herr, ?_, ?_, ?_⟩
    · exact sample_n_propagates_error ar n seed _ herr
    · unfold Autoregressive.batch_shape_tensor
      rw [herr, exceptMap_error]
    · unfold Autoregressive.event_shape_tensor
      rw [herr, exceptMap_error]

/-- Witness for claim C4 at the concrete instance demoARBadDtype, whose
recorded dtype 7 differs from the dtype 0 that demoFn returns. -/
theorem claim4_consistency_error_names_both_witness :
    ∃ (old offending : Nat) (pre mid : String),
      ((old = demoARBadDtype.dtype ∧
        offending = (demoARBadDtype.distribution_fn demoARBadDtype.sample0).dtype) ∨
       (old = demoARBadDtype.reparameterization_type ∧
        offending =
          (demoARBadDtype.distribution_fn demoARBadDtype.sample0).reparameterization_type)) ∧
      old ≠ offending ∧
      demoARBadDtype.get_distribution0 = Except.error
        (TfError.valueError (pre ++ toString old ++ mid ++ toString offending)) ∧
      demoARBadDtype.sample_n 3 (some 9) = Except.error
        (TfError.valueError (pre ++ toString old ++ mid ++ toString offending)) ∧
      demoARBadDtype.batch_shape_tensor = Except.error
        (TfError.valueError (pre ++ toString old ++ mid ++ toString offending)) ∧
      demoARBadDtype.event_shape_tensor = Except.error
        (TfError.valueError (pre ++ toString old ++ mid ++ toString offending)) :=
  claim4_consistency_error_names_both demoARBadDtype 3 (some 9) (Or.inl (by decide))

/-- Claim C5: when num_steps was not supplied and the freshly materialized
base distribution's event shape has a statically known element count m,
sample(n, seed) performs exactly m recurrence steps, m + 1 distribution_fn
invocations in total; when the element count is not statically known, the
count is computed dynamically as the product of the dynamic event-shape
dimensions and the recurrence is the sequential fold of that length. -/
theorem claim5_derived_step_count {Val : Type} (ar : Autoregressive Val) (n : Nat)
    (seed : Option Nat)
    (hns : ar.num_steps = none)
    (hd : (ar.distribution_fn ar.sample0).dtype = ar.dtype)
    (hr : (ar.distribution_fn ar.sample0).reparameterization_type =
      ar.reparameterization_type) :
    (∀ m : Nat, numElements (ar.distribution_fn ar.sample0).event_shape = some m →
      ∃ tr : List (Event Val),
        ar.sample_n n seed =
          Except.ok
            (sampleChain ar.distribution_fn (seedStreamDraw seed "Autoregressive")
              ((ar.distribution_fn ar.sample0).sample (some n)
                (seedStreamDraw seed "Autoregressive")) m, tr) ∧
        (fnCallArgs tr).length = m + 1) ∧
    (numElements (ar.distribution_fn ar.sample0).event_shape = none →
      ∃ tr : List (Event Val),
        ar.sample_n n seed =
          Except.ok
            ((foldlSteps ar.distribution_fn (seedStreamDraw seed "Autoregressive")
              (tfRange (Int.ofNat
                (reduceProd (ar.distribution_fn ar.sample0).event_shape_tensor)))
              ((ar.distribution_fn ar.sample0).sample (some n)
                (seedStreamDraw seed "Autoregressive"))).1, tr) ∧
        (fnCallArgs tr).length =
          reduceProd (ar.distribution_fn ar.sample0).event_shape_tensor + 1) := by
  have h := sample_n_closed_form ar n seed hd hr
  constructor
  · intro m hm
    have hres : resolvedSteps ar (ar.distribution_fn ar.sample0) = m := by
      simp [resolvedSteps, hns, hm]
    rw [hres] at h
    refine ⟨_, h, ?_⟩
    simp [fnCallArgs, fnCallArgs_chainTrace]
  · intro hm
    have hres : resolvedSteps ar (ar.distribution_fn ar.sample0) =
        reduceProd (ar.distribution_fn ar.sample0).event_shape_tensor := by
      simp [resolvedSteps, hns, hm]
    rw [hres] at h
    have hfold : (foldlSteps ar.distribution_fn (seedStreamDraw seed "Autoregressive")
        (tfRange (Int.ofNat
          (reduceProd (ar.distribution_fn ar.sample0).event_shape_tensor)))
        ((ar.distribution_fn ar.sample0).sample (some n)
          (seedStreamDraw seed "Autoregressive"))).1 =
        sampleChain ar.distribution_fn (seedStreamDraw seed "Autoregressive")
          ((ar.distribution_fn ar.sample0).sample (some n)
            (seedStreamDraw seed "Autoregressive"))
          (reduceProd (ar.distribution_fn ar.sample0).event_shape_tensor) := by
      rw [tfRange, intToNat_ofNat, foldlSteps_range_eq]
    rw [hfold]
    refine ⟨_, h, ?_⟩
    simp [fnCallArgs, fnCallArgs_chainTrace]

/-- Witness for claim C5 at the concrete instance demoARNoSteps, whose base
event shape [3] has static element count 3. -/
theorem claim5_derived_step_count_witness :
    ∃ tr : List (Event Nat),
      demoARNoSteps.sample_n 5 (some 11) =
        Except.ok
          (sampleChain demoARNoSteps.distribution_fn
            (seedStreamDraw (some 11) "Autoregressive")
            ((demoARNoSteps.distribution_fn demoARNoSteps.sample0).sample (some 5)
              (seedStreamDraw (some 11) "Autoregressive")) 3, tr) ∧
      (fnCallArgs tr).length = 3 + 1 :=
  (claim5_derived_step_count demoARNoSteps 5 (some 11) rfl rfl rfl).1 3 rfl

/-- Claim C6: within a single sample(n, seed) call with an explicit seed, one
seed token is derived from the caller's seed with the fixed salt
Autoregressive, the initial base draw uses that token, and every recurrence
repetition reuses that same token: the seeds of all sample invocations in the
trace are that one token, and no fresh token is derived per step. -/
theorem claim6_single_seed_token {Val : Type} (ar : Autoregressive Val) (n : Nat)
    (s : Nat)
    (hd : (ar.distribution_fn ar.sample0).dtype = ar.dtype)
    (hr : (ar.distribution_fn ar.sample0).reparameterization_type =
      ar.reparameterization_type) :
    ∃ (out : Val) (tr : List (Event Val)),
      ar.sample_n n (some s) = Except.ok (out, tr) ∧
      1 ≤ (sampleSeeds tr).length ∧
      (sampleSeeds tr).head? = some (seedStreamDraw (some s) "Autoregressive") ∧
      sampleSeeds tr =
        List.replicate (sampleSeeds tr).length
          (seedStreamDraw (some s) "Autoregressive") := by
  have h := sample_n_closed_form ar n (some s) hd hr
  refine ⟨_, _, h, ?_, ?_, ?_⟩ <;>
    simp [sampleSeeds, sampleSeeds_chainTrace, List.replicate_succ]

/-- Witness for claim C6 at the concrete instance demoAR, n = 6, seed 42. -/
theorem claim6_single_seed_token_witness :
    ∃ (out : Nat) (tr : List (Event Nat)),
      demoAR.sample_n 6 (some 42) = Except.ok (out, tr) ∧
      1 ≤ (sampleSeeds tr).length ∧
      (sampleSeeds tr).head? = some (seedStreamDraw (some 42) "Autoregressive") ∧
      sampleSeeds tr =
        List.replicate (sampleSeeds tr).length
          (seedStreamDraw (some 42) "Autoregressive") :=
  claim6_single_seed_token demoAR 6 42 rfl rfl

/-- Claim C7: two calls to sample(n, seed) with the same explicit seed value,
the same n, and a distribution_fn exhibiting the same behavior in both runs
(together with the same recorded construction state it is compared against)
produce identical outputs. -/
theorem claim7_determinism {Val : Type} (ar1 ar2 : Autoregressive Val) (n : Nat)
    (s : Nat)
    (hfn : ∀ x, ar1.distribution_fn x = ar2.distribution_fn x)
    (h0 : ar1.sample0 = ar2.sample0)
    (hns : ar1.num_steps = ar2.num_steps)
    (hdt : ar1.dtype = ar2.dtype)
    (hrt : ar1.reparameterization_type = ar2.reparameterization_type) :
    ar1.sample_n n (some s) = ar2.sample_n n (some s) := by
  have hf : ar1.distribution_fn = ar2.distribution_fn := funext hfn
  unfold Autoregressive.sample_n Autoregressive.get_distribution0
  rw [hf, h0, hns, hdt, hrt]

/-- Witness for claim C7: demoAR and demoARValidate differ only in the
validation flag, so sampling from them with the same seed agrees. -/
theorem claim7_determinism_witness :
    demoAR.sample_n 6 (some 42) = demoARValidate.sample_n 6 (some 42) :=
  claim7_determinism demoAR demoARValidate 6 42 (fun _ => rfl) rfl rfl rfl rfl

/-- Claim C8: the static shape queries always return the unknown shape,
without invoking distribution_fn or materializing any tensor, while the
dynamic variants materialize a fresh base distribution and return its batch
shape, respectively event shape, directly. -/
theorem claim8_shape_queries {Val : Type} (ar : Autoregressive Val)
    (hd : (ar.distribution_fn ar.sample0).dtype = ar.dtype)
    (hr : (ar.distribution_fn ar.sample0).reparameterization_type =
      ar.reparameterization_type) :
    ar.batch_shape = (TensorShape.unknown, ([] : List (Event Val))) ∧
    ar.event_shape = (TensorShape.unknown, ([] : List (Event Val))) ∧
    ar.batch_shape_tensor =
      Except.ok ((ar.distribution_fn ar.sample0).batch_shape_tensor,
        [Event.fnCall ar.sample0]) ∧
    ar.event_shape_tensor =
      Except.ok ((ar.distribution_fn ar.sample0).event_shape_tensor,
        [Event.fnCall ar.sample0]) := by
  have h0 := get_distribution0_ok ar hd hr
  refine ⟨rfl, rfl, ?_, ?_⟩
  · unfold Autoregressive.batch_shape_tensor
    rw [h0, exceptMap_ok]
  · unfold Autoregressive.event_shape_tensor
    rw [h0, exceptMap_ok]

/-- Witness for claim C8 at the concrete instance demoAR. -/
theorem claim8_shape_queries_witness :
    demoAR.batch_shape = (TensorShape.unknown, ([] : List (Event Nat))) ∧
    demoAR.event_shape = (TensorShape.unknown, ([] : List (Event Nat))) ∧
    demoAR.batch_shape_tensor =
      Except.ok ((demoAR.distribution_fn demoAR.sample0).batch_shape_tensor,
        [Event.fnCall demoAR.sample0]) ∧
    demoAR.event_shape_tensor =
      Except.ok ((demoAR.distribution_fn demoAR.sample0).event_shape_tensor,
        [Event.fnCall demoAR.sample0]) :=
  claim8_shape_queries demoAR rfl rfl

/-- Claim C9: density evaluation never performs the dtype or
reparameterization consistency check: log_prob(v) and prob(v) call
distribution_fn(v) directly, so even when the returned conditional handle's
dtype and reparameterization type both differ from the construction-time
values, no consistency error is raised and the handle's density is returned
unchecked. -/
theorem claim9_density_unchecked {Val : Type} (ar : Autoregressive Val) (v : Val)
    (hdt : (ar.distribution_fn (some v)).dtype ≠ ar.dtype)
    (hrt : (ar.distribution_fn (some v)).reparameterization_type ≠
      ar.reparameterization_type) :
    ar.log_prob v = ((ar.distribution_fn (some v)).log_prob v,
      [Event.fnCall (some v)]) ∧
    ar.prob v = ((ar.distribution_fn (some v)).prob v,
      [Event.fnCall (some v)]) :=
  ⟨rfl, rfl⟩

/-- Witness for claim C9 at the concrete instance demoARBadBoth, where both
recorded values differ from what demoFn returns. -/
theorem claim9_density_unchecked_witness :
    demoARBadBoth.log_prob 5 =
      ((demoARBadBoth.distribution_fn (some 5)).log_prob 5,
        [Event.fnCall (some 5)]) ∧
    demoARBadBoth.prob 5 =
      ((demoARBadBoth.distribution_fn (some 5)).prob 5,
        [Event.fnCall (some 5)]) :=
  claim9_density_unchecked demoARBadBoth 5 (by decide) (by decide)

/-- Claim C10: when construction with validation disabled and statically
known num_steps = 0 succeeds, sample(n, seed) performs zero recurrence
repetitions: it returns exactly the base distribution's draw made with the
derived seed token, and distribution_fn is invoked exactly once during the
sampling call. -/
theorem claim10_zero_steps_sampling {Val : Type} (fn : Option Val → DistHandle Val)
    (s0 : Option Val) (n : Nat) (seed : Option Nat) (ar : Autoregressive Val)
    (hcon : construct fn s0 (some { value := 0, isStatic := true }) false =
      Except.ok ar) :
    ar.sample_n n seed =
      Except.ok ((fn s0).sample (some n) (seedStreamDraw seed "Autoregressive"),
        [Event.fnCall s0,
         Event.sampleCall (some n) (seedStreamDraw seed "Autoregressive")]) ∧
    (fnCallArgs
      [Event.fnCall s0,
       Event.sampleCall (some n)
         (seedStreamDraw seed "Autoregressive")]).length = 1 := by
  have har : ar =
      { distribution_fn := fn
        sample0 := s0
        num_steps := some ⟨0, true⟩
        validate_args := false
        dtype := (fn s0).dtype
        reparameterization_type := (fn s0).reparameterization_type } := by
    unfold construct Autoregressive.parameter_control_dependencies at hcon
    simp at hcon
    exact hcon.symm
  subst har
  constructor
  · have h := sample_n_closed_form
      { distribution_fn := fn
        sample0 := s0
        num_steps := some ⟨0, true⟩
        validate_args := false
        dtype := (fn s0).dtype
        reparameterization_type := (fn s0).reparameterization_type }
      n seed rfl rfl
    simpa [resolvedSteps, sampleChain, chainTrace] using h
  · simp [fnCallArgs]

/-- Witness for claim C10 at the concrete instance demoARZero, n = 8,
seed 3. -/
theorem claim10_zero_steps_sampling_witness :
    demoARZero.sample_n 8 (some 3) =
      Except.ok ((demoFn (some 4)).sample (some 8)
          (seedStreamDraw (some 3) "Autoregressive"),
        [Event.fnCall (some 4),
         Event.sampleCall (some 8) (seedStreamDraw (some 3) "Autoregressive")]) ∧
    (fnCallArgs
      [Event.fnCall ((some 4) : Option Nat),
       Event.sampleCall (some 8)
         (seedStreamDraw (some 3) "Autoregressive")]).length = 1 :=
  claim10_zero_steps_sampling demoFn (some 4) 8 (some 3) demoARZero rfl

end Autoreg
